import Mathlib

/-!
Verification of the `brakes` circuit-breaker library (TypeScript sources:
`lib/Brakes.ts`, `lib/Circuit.ts`, `lib/stats.ts`, `lib/Bucket.ts`,
`lib/globalStats.ts`, `lib/consts.ts`).

Shallow embedding: every class becomes a structure, every mutating method a
function from state to state (JavaScript shares `CumulativeStats` by
reference between the `Stats` object and its `Bucket`s, so the record is
threaded explicitly).  Latency samples and elapsed times are natural-number
milliseconds; percentile levels and the success-ratio threshold are
rationals, mirroring the JavaScript numbers used by the source.

Wall-clock timers (bucket rotation, snapshot interval, health interval,
cooldown) are modelled as explicit steps: the timer callbacks' bodies are
embedded, their scheduling is not.
-/

namespace Brakes

/-- Lifetime counters with per-snapshot-interval derivatives, from the
`defaultCumulativeStats` object of `stats.ts`. -/
structure CumulativeStats where
  countTotal : ℕ
  countSuccess : ℕ
  countFailure : ℕ
  countTimeout : ℕ
  countShortCircuited : ℕ
  countTotalDeriv : ℕ
  countSuccessDeriv : ℕ
  countFailureDeriv : ℕ
  countTimeoutDeriv : ℕ
  countShortCircuitedDeriv : ℕ
  deriving DecidableEq

/-- The zero-valued `defaultCumulativeStats` literal of `stats.ts`. -/
def defaultCumulativeStats : CumulativeStats :=
  { countTotal := 0
    countSuccess := 0
    countFailure := 0
    countTimeout := 0
    countShortCircuited := 0
    countTotalDeriv := 0
    countSuccessDeriv := 0
    countFailureDeriv := 0
    countTimeoutDeriv := 0
    countShortCircuitedDeriv := 0 }

/-- One time slice of the rolling window (`Bucket.ts`).  Field initialisers
match the class field initialisers of the source. -/
structure Bucket where
  failed : ℕ := 0
  successful : ℕ := 0
  total : ℕ := 0
  shortCircuited : ℕ := 0
  timedOut : ℕ := 0
  requestTimes : List ℕ := []
  deriving DecidableEq

/-- `Bucket.failure(runTime)`: the bucket's own counters and the shared
cumulative record are written in lockstep. -/
def Bucket.failure (b : Bucket) (c : CumulativeStats) (runTime : ℕ) :
    Bucket × CumulativeStats :=
  ({ b with
      total := b.total + 1
      failed := b.failed + 1
      requestTimes := b.requestTimes ++ [runTime] },
   { c with
      countTotal := c.countTotal + 1
      countTotalDeriv := c.countTotalDeriv + 1
      countFailure := c.countFailure + 1
      countFailureDeriv := c.countFailureDeriv + 1 })

/-- `Bucket.success(runTime)`. -/
def Bucket.success (b : Bucket) (c : CumulativeStats) (runTime : ℕ) :
    Bucket × CumulativeStats :=
  ({ b with
      total := b.total + 1
      successful := b.successful + 1
      requestTimes := b.requestTimes ++ [runTime] },
   { c with
      countTotal := c.countTotal + 1
      countTotalDeriv := c.countTotalDeriv + 1
      countSuccess := c.countSuccess + 1
      countSuccessDeriv := c.countSuccessDeriv + 1 })

/-- `Bucket.timeout(runTime)`. -/
def Bucket.timeout (b : Bucket) (c : CumulativeStats) (runTime : ℕ) :
    Bucket × CumulativeStats :=
  ({ b with
      total := b.total + 1
      timedOut := b.timedOut + 1
      requestTimes := b.requestTimes ++ [runTime] },
   { c with
      countTotal := c.countTotal + 1
      countTotalDeriv := c.countTotalDeriv + 1
      countTimeout := c.countTimeout + 1
      countTimeoutDeriv := c.countTimeoutDeriv + 1 })

/-- `Bucket.shortCircuit()`: touches only the short-circuit counters, never
`total` or `requestTimes`. -/
def Bucket.shortCircuit (b : Bucket) (c : CumulativeStats) :
    Bucket × CumulativeStats :=
  ({ b with shortCircuited := b.shortCircuited + 1 },
   { c with
      countShortCircuited := c.countShortCircuited + 1
      countShortCircuitedDeriv := c.countShortCircuitedDeriv + 1 })

/-- Operations a caller can perform on one bucket, for stating for-all
invariants over call sequences. -/
inductive BucketOp
  | success (runTime : ℕ)
  | failure (runTime : ℕ)
  | timeout (runTime : ℕ)
  | shortCircuit

/-- Dispatch one `BucketOp` on a bucket together with the shared cumulative
record. -/
def applyBucketOp (s : Bucket × CumulativeStats) (op : BucketOp) :
    Bucket × CumulativeStats :=
  match op with
  | .success d => s.1.success s.2 d
  | .failure d => s.1.failure s.2 d
  | .timeout d => s.1.timeout s.2 d
  | .shortCircuit => s.1.shortCircuit s.2

/-- Apply a sequence of bucket operations in order. -/
def applyBucketOps (s : Bucket × CumulativeStats) (ops : List BucketOp) :
    Bucket × CumulativeStats :=
  ops.foldl applyBucketOp s

/-- Insert into an ascending list, keeping it ascending. -/
def insertAsc (x : ℕ) : List ℕ → List ℕ
  | [] => [x]
  | y :: ys => if x ≤ y then x :: y :: ys else y :: insertAsc x ys

/-- Ascending sort of the concatenated latency samples, the effect of
`requestTimes.sort((a, b) => a - b)` in `_generateStats` (on totally ordered
numbers the ascending reordering is unique, so insertion sort is an exact
model of the numeric sort). -/
def sortAsc : List ℕ → List ℕ
  | [] => []
  | x :: xs => insertAsc x (sortAsc xs)

/-- `Math.ceil` on an exact rational, written with Euclidean integer
division so that it evaluates by kernel reduction; `ratCeil_eq` below
proves it equal to the mathematical ceiling `⌈q⌉`. -/
def ratCeil (q : ℚ) : ℤ :=
  -((-q.num).ediv q.den)

/-- `Stats._calculatePercentile(percentile, array)` on an ascending `array`:
`array[0]` for level 0, else `array[ceil(percentile * length) - 1]`.  The
product `percentile * length` is written `mkRat (percentile.num * length)
percentile.den`, an equal rational in evaluable form (`mkRat_mul_natCast`
below).  `none` models JavaScript `undefined` for an out-of-range index
(empty array, or a level outside the unit interval). -/
def calculatePercentile (percentile : ℚ) (array : List ℕ) : Option ℕ :=
  if percentile = 0 then array.head?
  else
    let idx : ℤ := ratCeil (mkRat (percentile.num * array.length) percentile.den)
    if idx ≤ 0 then none else array.get? (idx.toNat - 1)

/-- `Stats._calculateMean(array)` = `Math.round(sum / length)`.  For a
nonnegative value `Math.round` is the floor of the value plus one half,
which over the exact rationals is the natural-number division
`(2 * sum + length) / (2 * length)` (`calculateMean_eq_round` below).
`none` models the `NaN` produced on an empty array. -/
def calculateMean (array : List ℕ) : Option ℕ :=
  if array.length = 0 then none
  else some ((2 * array.sum + array.length) / (2 * array.length))

/-- The aggregate published by `_generateStats` and carried on `update` /
`snapshot` events.  `cumulative` is the flat copy made by
`Object.assign(tempTotals, this._cumulative)`: `none` models an `undefined`
`_cumulative`, in which case `Object.assign` attaches nothing.  The raw
`requestTimes` array is deleted before the aggregate is stored, so the
structure has no such field. -/
structure TotalStats where
  failed : ℕ
  timedOut : ℕ
  total : ℕ
  shortCircuited : ℕ
  successful : ℕ
  latencyMean : ℕ
  percentiles : List (ℚ × ℕ)
  cumulative : Option CumulativeStats
  deriving DecidableEq

/-- Window sum of a per-bucket numeric field, as accumulated by the
`reduce` in `_generateStats`. -/
def windowSum (buckets : List Bucket) (f : Bucket → ℕ) : ℕ :=
  (buckets.map f).sum

/-- All latency samples of the window in bucket order, the concatenation of
the buckets' `requestTimes` performed by `_generateStats`. -/
def windowRequestTimes (buckets : List Bucket) : List ℕ :=
  (buckets.map Bucket.requestTimes).flatten

/-- `Stats._generateStats(buckets, includeLatencyStats)`.  `prev` is the
previously stored `this._totals`, read only when `includeLatencyStats` is
false; `percentiles` is `this._opts.percentiles`; `cumulative` is
`this._cumulative` (which `Object.assign` flat-copies onto the result, or
skips when it is `undefined` = `none`).  The `|| 0` guards of the source
map the `undefined`/`NaN` cases of the percentile and mean helpers to 0. -/
def generateStats (buckets : List Bucket) (includeLatencyStats : Bool)
    (prev : TotalStats) (percentiles : List ℚ)
    (cumulative : Option CumulativeStats) : TotalStats :=
  if includeLatencyStats then
    let sorted := sortAsc (windowRequestTimes buckets)
    { failed := windowSum buckets Bucket.failed
      timedOut := windowSum buckets Bucket.timedOut
      total := windowSum buckets Bucket.total
      shortCircuited := windowSum buckets Bucket.shortCircuited
      successful := windowSum buckets Bucket.successful
      latencyMean := (calculateMean sorted).getD 0
      percentiles := percentiles.map fun p => (p, (calculatePercentile p sorted).getD 0)
      cumulative := cumulative }
  else
    { failed := windowSum buckets Bucket.failed
      timedOut := windowSum buckets Bucket.timedOut
      total := windowSum buckets Bucket.total
      shortCircuited := windowSum buckets Bucket.shortCircuited
      successful := windowSum buckets Bucket.successful
      latencyMean := prev.latencyMean
      percentiles := prev.percentiles
      cumulative := cumulative }

/-- The `Stats` constructor declares `private _cumulative: CumulativeStats`
but never assigns it: the `defaultCumulativeStats` literal of `stats.ts` is
dead code, so at run time `this._cumulative` is `undefined`.  This is the
value every `new Bucket(this._cumulative)` and every
`Object.assign(tempTotals, this._cumulative)` of the source receives. -/
def sourceCumulative : Option CumulativeStats := none

/-- State of one `Stats` object.  `cum` is the shared cumulative record.
Modelled from the spec: the source constructor never creates the record
(see `sourceCumulative`), while the spec and the source's own declarations
(`TotalStats = CumulativeStats & …`, `Bucket`'s non-optional constructor
argument, the dead `defaultCumulativeStats`) require one shared record, so
the model threads it as explicit state. -/
structure Stats where
  bucketNum : ℕ
  percentiles : List ℚ
  buckets : List Bucket
  cum : CumulativeStats
  totals : TotalStats

/-- `this._activeBucket`, i.e. `this._buckets[this._opts.bucketNum - 1]`. -/
def Stats.activeBucket (st : Stats) : Bucket :=
  st.buckets.getD (st.bucketNum - 1) {}

/-- Replace the active bucket (the source mutates it in place). -/
def Stats.setActive (st : Stats) (b : Bucket) : Stats :=
  { st with buckets := st.buckets.set (st.bucketNum - 1) b }

/-- `Stats._update()`: recompute totals without latency stats, store them,
and return the payload of the `update` event. -/
def Stats.update (st : Stats) : Stats × TotalStats :=
  let t := generateStats st.buckets false st.totals st.percentiles (some st.cum)
  ({ st with totals := t }, t)

/-- `Stats.success(runTime)`: record on the active bucket, then `_update`. -/
def Stats.success (st : Stats) (runTime : ℕ) : Stats × TotalStats :=
  let bc := st.activeBucket.success st.cum runTime
  Stats.update { st.setActive bc.1 with cum := bc.2 }

/-- `Stats.failure(runTime)`. -/
def Stats.failure (st : Stats) (runTime : ℕ) : Stats × TotalStats :=
  let bc := st.activeBucket.failure st.cum runTime
  Stats.update { st.setActive bc.1 with cum := bc.2 }

/-- `Stats.timeout(runTime)`. -/
def Stats.timeout (st : Stats) (runTime : ℕ) : Stats × TotalStats :=
  let bc := st.activeBucket.timeout st.cum runTime
  Stats.update { st.setActive bc.1 with cum := bc.2 }

/-- `Stats.shortCircuit()`. -/
def Stats.shortCircuit (st : Stats) : Stats × TotalStats :=
  let bc := st.activeBucket.shortCircuit st.cum
  Stats.update { st.setActive bc.1 with cum := bc.2 }

/-- `Stats._resetDerivs()`: zero the five `…Deriv` fields only. -/
def resetDerivs (c : CumulativeStats) : CumulativeStats :=
  { c with
    countTotalDeriv := 0
    countSuccessDeriv := 0
    countFailureDeriv := 0
    countTimeoutDeriv := 0
    countShortCircuitedDeriv := 0 }

/-- `Stats._snapshot()`: compute and store `_generateStats(buckets, true)`,
emit it as the `snapshot` event payload, then `_resetDerivs()`. -/
def Stats.snapshot (st : Stats) : Stats × TotalStats :=
  let t := generateStats st.buckets true st.totals st.percentiles (some st.cum)
  ({ st with totals := t, cum := resetDerivs st.cum }, t)

/-- `Stats._shiftAndPush(arr, item)`: push, then shift off the head. -/
def shiftAndPush {α : Type} (arr : List α) (item : α) : List α :=
  (arr ++ [item]).drop 1

/-- Body of the bucket-rotation timer (`_startBucketSpinning` callback):
shift-and-push a fresh bucket; no aggregation happens here. -/
def Stats.rotate (st : Stats) : Stats :=
  { st with buckets := shiftAndPush st.buckets {} }

/-- `Stats.reset()`: shift-and-push `bucketNum` fresh buckets (replacing
the whole window when it holds `bucketNum` buckets), then `_update()`. -/
def Stats.reset (st : Stats) : Stats × TotalStats :=
  Stats.update
    { st with
      buckets := (List.range st.bucketNum).foldl
        (fun bs _ => shiftAndPush bs ({} : Bucket)) st.buckets }

/-- Placeholder for `this._totals` before the constructor's first
`_generateStats(buckets, true)`; never read, because that call takes the
latency branch. -/
def emptyTotals : TotalStats :=
  { failed := 0, timedOut := 0, total := 0, shortCircuited := 0
    successful := 0, latencyMean := 0, percentiles := [], cumulative := none }

/-- The `Stats` constructor: `bucketNum` fresh buckets, active = last, and
an initial latency-inclusive totals computation.  The shared cumulative
record is a parameter (see `Stats`). -/
def Stats.init (bucketNum : ℕ) (percentiles : List ℚ) (cum : CumulativeStats) :
    Stats :=
  let buckets := List.replicate bucketNum ({} : Bucket)
  { bucketNum := bucketNum
    percentiles := percentiles
    buckets := buckets
    cum := cum
    totals := generateStats buckets true emptyTotals percentiles (some cum) }

/-- Default percentile levels of `stats.ts`. -/
def defaultPercentiles : List ℚ :=
  [0, mkRat 1 4, mkRat 1 2, mkRat 3 4, mkRat 9 10, mkRat 95 100, mkRat 99 100, mkRat 995 1000, 1]

/-- One step of any of the `Stats` entry points, for stating invariants
over arbitrary interleavings of recordings, rotations, resets, snapshots
and updates. -/
inductive StatsOp
  | success (runTime : ℕ)
  | failure (runTime : ℕ)
  | timeout (runTime : ℕ)
  | shortCircuit
  | rotate
  | reset
  | snapshot
  | update

/-- Dispatch one `StatsOp`. -/
def applyStatsOp (st : Stats) (op : StatsOp) : Stats :=
  match op with
  | .success d => (st.success d).1
  | .failure d => (st.failure d).1
  | .timeout d => (st.timeout d).1
  | .shortCircuit => st.shortCircuit.1
  | .rotate => st.rotate
  | .reset => st.reset.1
  | .snapshot => st.snapshot.1
  | .update => st.update.1

/-- Apply a sequence of `Stats` operations in order. -/
def applyStatsOps (st : Stats) (ops : List StatsOp) : Stats :=
  ops.foldl applyStatsOp st

/-- Pointwise order on the five plain (non-`Deriv`) cumulative counters. -/
def CumulativeStats.plainLE (c d : CumulativeStats) : Prop :=
  c.countTotal ≤ d.countTotal ∧ c.countSuccess ≤ d.countSuccess ∧
  c.countFailure ≤ d.countFailure ∧ c.countTimeout ≤ d.countTimeout ∧
  c.countShortCircuited ≤ d.countShortCircuited

/-! ## The Breaker (`Brakes.ts`) -/

/-- The options of `Brakes.ts` that drive the embedded logic.  Timing
options (spans, intervals, durations, timeout) parameterise wall-clock
timers and are not part of the state machine. -/
structure Opts where
  name : String := "defaultBrake"
  waitThreshold : ℕ := 100
  threshold : ℚ := mkRat 1 2
  hasHealthCheck : Bool := false
  hasFallback : Bool := false

/-- Events a Breaker emits, as far as the claims observe them.  `success`,
`failure` and `timeout` events are modelled by the handler calls they
trigger (`Circuit.settle` below); `snapshot` payloads by `Stats.snapshot`. -/
inductive Event
  | circuitOpenEv
  | circuitClosedEv
  | execEv
  deriving DecidableEq

/-- State of one Breaker: `_circuitOpen`, `_circuitGeneration`, its
`Stats`, and the log of emitted `circuitOpen`/`circuitClosed`/`exec`
events. -/
structure Breaker where
  opts : Opts
  circuitOpen : Bool
  circuitGeneration : ℕ
  stats : Stats
  events : List Event

/-- The Breaker constructor: closed, generation 1, fresh `Stats`.  The
shared cumulative record is a parameter (see `Stats`). -/
def Breaker.init (opts : Opts) (bucketNum : ℕ) (percentiles : List ℚ)
    (cum : CumulativeStats) : Breaker :=
  { opts := opts
    circuitOpen := false
    circuitGeneration := 1
    stats := Stats.init bucketNum percentiles cum
    events := [] }

/-- `Brakes._open()`: no-op when already open; otherwise emit
`circuitOpen`, set the flag, increment the generation.  The source then
starts the health interval or the cooldown timer; their callbacks are
`Stats.reset` followed by `Breaker.close` (see `_setHealthInterval`,
`_resetCircuitTimeout`) and are outside the wall-clock-free model. -/
def Breaker.openCircuit (st : Breaker) : Breaker :=
  if st.circuitOpen then st
  else
    { st with
      events := st.events ++ [Event.circuitOpenEv]
      circuitOpen := true
      circuitGeneration := st.circuitGeneration + 1 }

/-- `Brakes._close()`: clear the flag and emit `circuitClosed`. -/
def Breaker.closeCircuit (st : Breaker) : Breaker :=
  { st with
    circuitOpen := false
    events := st.events ++ [Event.circuitClosedEv] }

/-- `Brakes._checkStats(stats)`, run on every `update` event:
`pastThreshold = (stats.total || 0) > waitThreshold`; return unless
`pastThreshold`, `stats.total` truthy, and the circuit closed; open when
`stats.successful / stats.total < threshold`.  The quotient is written
`mkRat stats.successful stats.total`, the equal rational in evaluable form
(`mkRat_natCast_div` below). -/
def Breaker.checkStats (st : Breaker) (stats : TotalStats) : Breaker :=
  let pastThreshold := stats.total > st.opts.waitThreshold
  if ¬pastThreshold ∨ stats.total = 0 ∨ st.circuitOpen then st
  else if mkRat stats.successful stats.total < st.opts.threshold then
    st.openCircuit
  else st

/-- `Brakes._successHandler(runTime)` composed with the `update` listener:
forward to `Stats.success` — with no generation comparison — then
`_checkStats` on the emitted totals. -/
def Breaker.onSuccess (st : Breaker) (runTime : ℕ) : Breaker :=
  let r := st.stats.success runTime
  Breaker.checkStats { st with stats := r.1 } r.2

/-- `Brakes._timeoutHandler(runTime, execGeneration)`: record only when the
event's generation equals the current one. -/
def Breaker.onTimeout (st : Breaker) (runTime execGeneration : ℕ) : Breaker :=
  if execGeneration = st.circuitGeneration then
    let r := st.stats.timeout runTime
    Breaker.checkStats { st with stats := r.1 } r.2
  else st

/-- `Brakes._failureHandler(runTime, execGeneration)`. -/
def Breaker.onFailure (st : Breaker) (runTime execGeneration : ℕ) : Breaker :=
  if execGeneration = st.circuitGeneration then
    let r := st.stats.failure runTime
    Breaker.checkStats { st with stats := r.1 } r.2
  else st

/-! ## The invocation pipeline (`Circuit.ts`) -/

/-- The ways an outcome of a protected call returns to the Breaker, as
emitted at the end of `Circuit.exec`: `success` is emitted as
`emit('success', elapsed)` with no generation argument, while `timeout`
and `failure` are emitted with the `execGeneration` captured when the
`exec` call started. -/
inductive Outcome
  | success (runTime : ℕ)
  | timeout (runTime : ℕ)
  | failure (runTime : ℕ)

/-- Delivery of one completed call's outcome to the Breaker's listeners,
carrying the `execGeneration` the originating `exec` captured.  For
`success` the source's event carries no generation, so the handler runs
unconditionally; `timeout`/`failure` pass the generation through. -/
def Circuit.settle (st : Breaker) (execGeneration : ℕ) : Outcome → Breaker
  | .success runTime => st.onSuccess runTime
  | .timeout runTime => st.onTimeout runTime execGeneration
  | .failure runTime => st.onFailure runTime execGeneration

/-- Per-circuit configuration relevant to the open-breaker path: whether a
local (slave-circuit) fallback was installed. -/
structure CircuitConf where
  hasLocalFallback : Bool := false

/-- Result of a `Circuit.exec` call, before any user promise runs:
while the breaker is open the call short-circuits into a fallback or a
`CircuitBrokenError` carrying the breaker name, the current `_totals` and
the threshold; while closed it proceeds to run the wrapped operation under
a timeout (`run`, carrying the captured generation). -/
inductive ExecResult (α : Type)
  | localFallback (args : α)
  | brakesFallback (args : α)
  | circuitOpenError (name : String) (totals : TotalStats) (threshold : ℚ)
  | run (execGeneration : ℕ)

/-- `true` exactly on the `circuitOpenError` result. -/
def ExecResult.isCircuitOpenError {α : Type} : ExecResult α → Bool
  | .circuitOpenError _ _ _ => true
  | _ => false

/-- `Circuit.exec(...args)` up to the point where the wrapped operation
would run: emit `exec`, capture `execGeneration`; when the breaker is open,
record a short circuit on Stats (whose `update` event synchronously runs
`_checkStats`), then dispatch to the local fallback, the breaker fallback
or a `CircuitBrokenError` built from the freshly stored `_totals`. -/
def Circuit.exec {α : Type} (conf : CircuitConf) (st : Breaker) (args : α) :
    Breaker × ExecResult α :=
  let st := { st with events := st.events ++ [Event.execEv] }
  let execGeneration := st.circuitGeneration
  if st.circuitOpen then
    let r := st.stats.shortCircuit
    let st := Breaker.checkStats { st with stats := r.1 } r.2
    (st,
      if conf.hasLocalFallback then .localFallback args
      else if st.opts.hasFallback then .brakesFallback args
      else .circuitOpenError st.opts.name st.stats.totals st.opts.threshold)
  else (st, .run execGeneration)

/-- `consts.NO_FUNCTION` from `consts.ts`. -/
def NO_FUNCTION : String :=
  "This instance of brakes has no master circuit. You must use a slave circuit."

/-- What `Brakes.exec` returns: delegation to the master circuit, or the
rejected promise produced when no master circuit exists. -/
inductive BrakesExecResult (α : Type)
  | delegated (r : ExecResult α)
  | rejected (message : String)

/-- `Brakes.exec()`: delegate to `this._masterCircuit` when one exists,
else return `Promise.reject(new Error(consts.NO_FUNCTION))` — touching
neither the stats nor the event log. -/
def Breaker.exec {α : Type} (masterCircuit : Option CircuitConf)
    (st : Breaker) (args : α) : Breaker × BrakesExecResult α :=
  match masterCircuit with
  | some conf =>
    let r := Circuit.exec conf st args
    (r.1, .delegated r.2)
  | none => (st, .rejected NO_FUNCTION)

/-! ## The global registry (`globalStats.ts`)

Breakers are identified by opaque numeric ids.  JavaScript function
identity matters here: `register` subscribes `this._globalListener.bind(this)`
to the breaker's `snapshot` event, and `Function.prototype.bind` returns a
fresh function object on every call; `EventEmitter.removeListener` removes
a listener only when it is reference-equal to a subscribed one.  Bound
copies are therefore modelled as consecutively numbered fresh ids. -/

/-- State of the `GlobalStats` singleton: the `_brakesInstances` list and,
per breaker, the identities of the `snapshot` listeners subscribed on it. -/
structure GlobalStats where
  brakesInstances : List ℕ
  snapshotListeners : List (ℕ × ℕ)
  nextBoundId : ℕ

/-- The module-level `new GlobalStats()` singleton. -/
def GlobalStats.initial : GlobalStats :=
  { brakesInstances := [], snapshotListeners := [], nextBoundId := 0 }

/-- `this._globalListener.bind(this)`: a fresh function object. -/
def GlobalStats.bindGlobalListener (g : GlobalStats) : ℕ × GlobalStats :=
  (g.nextBoundId, { g with nextBoundId := g.nextBoundId + 1 })

/-- `GlobalStats.register(instance)`: push the instance and subscribe a
fresh bound copy of `_globalListener` to its `snapshot` event. -/
def GlobalStats.register (g : GlobalStats) (b : ℕ) : GlobalStats :=
  let fg := g.bindGlobalListener
  { fg.2 with
    brakesInstances := fg.2.brakesInstances ++ [b]
    snapshotListeners := fg.2.snapshotListeners ++ [(b, fg.1)] }

/-- Remove the first occurrence of a listener (Node's `removeListener`
removes at most one reference-equal entry). -/
def removeFirstListener (l : List (ℕ × ℕ)) (target : ℕ × ℕ) : List (ℕ × ℕ) :=
  match l with
  | [] => []
  | x :: xs => if x = target then xs else x :: removeFirstListener xs target

/-- `instance.removeListener('snapshot', f)` for breaker `b`. -/
def GlobalStats.removeListener (g : GlobalStats) (b f : ℕ) : GlobalStats :=
  { g with snapshotListeners := removeFirstListener g.snapshotListeners (b, f) }

/-- `GlobalStats.deregister(instance)`: splice the instance out of the list
when present, then call `removeListener` with a *fresh* bound copy of
`_globalListener` — a different function object from the one `register`
subscribed. -/
def GlobalStats.deregister (g : GlobalStats) (b : ℕ) : GlobalStats :=
  let g1 :=
    match g.brakesInstances.indexOf? b with
    | some idx => { g with brakesInstances := g.brakesInstances.eraseIdx idx }
    | none => g
  let fg := g1.bindGlobalListener
  fg.2.removeListener b fg.1

/-- `GlobalStats.instanceCount()`. -/
def GlobalStats.instanceCount (g : GlobalStats) : ℕ :=
  g.brakesInstances.length

/-- Whether a `snapshot` event emitted by breaker `b` still invokes a
subscribed `_globalListener` (and is hence pushed onto the raw feed). -/
def GlobalStats.snapshotReachesRawFeed (g : GlobalStats) (b : ℕ) : Bool :=
  g.snapshotListeners.any fun p => p.1 = b

/-! ## Concrete scenario states -/

/-- Window shape established by the constructor: `bucketNum` buckets, the
active one the last.  All `Stats` entry points preserve it. -/
def Breaker.WF (st : Breaker) : Prop :=
  st.stats.buckets.length = st.stats.bucketNum ∧ 0 < st.stats.bucketNum

/-- A breaker that has re-opened (generation 2) while a generation-1 call
was still in flight: default options, fresh stats. -/
def genTwoState : Breaker :=
  { Breaker.init {} 60 defaultPercentiles defaultCumulativeStats with
    circuitOpen := true
    circuitGeneration := 2 }

/-- Open-on-threshold scenario: `waitThreshold = 4`, `threshold = 0.5`,
otherwise defaults. -/
def c3Start : Breaker :=
  Breaker.init { waitThreshold := 4, threshold := mkRat 1 2 } 60 defaultPercentiles
    defaultCumulativeStats

/-- After recording S, F, F, F (all carrying the current generation 1). -/
def c3AfterFour : Breaker :=
  (((c3Start.onSuccess 10).onFailure 10 1).onFailure 10 1).onFailure 10 1

/-- After the fifth recording (the last F). -/
def c3Final : Breaker :=
  c3AfterFour.onFailure 10 1

/-- Percentile-exactness scenario: a single bucket, percentile levels
`[0, 1/2, 1]`. -/
def c4Start : Stats :=
  Stats.init 1 [0, mkRat 1 2, 1] defaultCumulativeStats

/-- The single bucket filled so that `requestTimes = [10, 20, 30, 40, 50]`. -/
def c4Window : Stats :=
  (((((c4Start.success 10).1.success 20).1.failure 30).1.timeout 40).1.success 50).1

/-- The same five samples recorded out of order, so that the aggregation
has to sort them. -/
def c4Shuffled : Stats :=
  (((((c4Start.success 30).1.success 10).1.failure 50).1.timeout 20).1.success 40).1

/-- Short-circuit accounting scenario: an open breaker (generation 2), no
fallback anywhere, fresh stats. -/
def c6Start : Breaker :=
  { Breaker.init { waitThreshold := 4, threshold := mkRat 1 2 } 60 defaultPercentiles
      defaultCumulativeStats with
    circuitOpen := true
    circuitGeneration := 2 }

/-- Iterate `Circuit.exec` (no local fallback, argument 0) `n` times,
collecting the results in call order. -/
def execResults : ℕ → Breaker → Breaker × List (ExecResult ℕ)
  | 0, st => (st, [])
  | n + 1, st =>
    let r := Circuit.exec ({} : CircuitConf) st 0
    let rest := execResults n r.1
    (rest.1, r.2 :: rest.2)

/-- Boundary scenario: `waitThreshold = 0`, default threshold 0.5, fresh
breaker. -/
def c7Start : Breaker :=
  Breaker.init { waitThreshold := 0 } 60 defaultPercentiles
    defaultCumulativeStats

/-- The bucket invariant of the spec: `total = successful + failed +
timedOut`, and one latency sample per counted outcome. -/
def BucketInv (b : Bucket) : Prop :=
  b.total = b.successful + b.failed + b.timedOut ∧
  b.requestTimes.length = b.successful + b.failed + b.timedOut

/-! ## Bridge lemmas

The executable forms used in the definitions above are proved equal to the
textbook formulas of the source (`Math.ceil`, `Math.round`, and the float
quotients, all exact on rationals). -/

/-- `ratCeil` is the mathematical ceiling. -/
theorem ratCeil_eq (q : ℚ) : ratCeil q = ⌈q⌉ := by
  have h1 : -⌊-q⌋ = (⌈q⌉ : ℤ) := by rw [Int.floor_neg]; ring
  unfold ratCeil
  rw [← h1, Rat.floor_def]
  rfl

/-- The evaluable product used in `calculatePercentile` is
`percentile * length`. -/
theorem mkRat_mul_natCast (p : ℚ) (n : ℕ) :
    mkRat (p.num * n) p.den = p * (n : ℚ) := by
  rw [Rat.mkRat_eq_div]
  push_cast
  have h2 : (p.num : ℚ) * n / p.den = ((p.num : ℚ) / p.den) * n := by ring
  rw [h2, Rat.num_div_den]

/-- The evaluable quotient used in `Breaker.checkStats` is
`successful / total`. -/
theorem mkRat_natCast_div (s t : ℕ) : (mkRat s t : ℚ) = (s : ℚ) / (t : ℚ) := by
  rw [Rat.mkRat_eq_div]
  norm_num

/-- On a nonempty array, `calculateMean` is `Math.round(sum / length)` =
`⌊sum / length + 1/2⌋`. -/
theorem calculateMean_eq_round (array : List ℕ) (h : array.length ≠ 0) :
    calculateMean array
      = some (Int.toNat ⌊(array.sum : ℚ) / (array.length : ℚ) + 1 / 2⌋) := by
  unfold calculateMean
  rw [if_neg h]
  congr 1
  have h2 : (array.sum : ℚ) / array.length + 1 / 2
      = ((2 * array.sum + array.length : ℕ) : ℚ)
        / ((2 * array.length : ℕ) : ℚ) := by
    push_cast
    field_simp
    ring
  rw [h2, Rat.floor_natCast_div_natCast]
  norm_cast

/-! ## Structural helper lemmas -/

/-- `_open` never touches the `Stats` object. -/
theorem openCircuit_stats (st : Breaker) : st.openCircuit.stats = st.stats := by
  unfold Breaker.openCircuit
  split <;> rfl

/-- `_checkStats` never touches the `Stats` object. -/
theorem checkStats_stats (st : Breaker) (t : TotalStats) :
    (st.checkStats t).stats = st.stats := by
  unfold Breaker.checkStats
  dsimp only
  split
  · rfl
  · split
    · exact openCircuit_stats st
    · rfl

/-- `_open` never touches the options. -/
theorem openCircuit_opts (st : Breaker) : st.openCircuit.opts = st.opts := by
  unfold Breaker.openCircuit
  split <;> rfl

/-- `_checkStats` never touches the options. -/
theorem checkStats_opts (st : Breaker) (t : TotalStats) :
    (st.checkStats t).opts = st.opts := by
  unfold Breaker.checkStats
  dsimp only
  split
  · rfl
  · split
    · exact openCircuit_opts st
    · rfl

/-- Recording a success bumps `countSuccess` on the shared record. -/
theorem stats_success_cum (st : Stats) (d : ℕ) :
    ((st.success d).1).cum.countSuccess = st.cum.countSuccess + 1 := rfl

/-- The state after `Stats.shortCircuit`: the shared record gains one
short circuit (and one on the derivative), and the active bucket is
replaced by itself with `shortCircuited` bumped. -/
theorem shortCircuit_state (st : Stats) :
    (st.shortCircuit).1.cum
      = { st.cum with
          countShortCircuited := st.cum.countShortCircuited + 1
          countShortCircuitedDeriv := st.cum.countShortCircuitedDeriv + 1 } ∧
    (st.shortCircuit).1.buckets
      = st.buckets.set (st.bucketNum - 1)
          { st.activeBucket with
            shortCircuited := st.activeBucket.shortCircuited + 1 } :=
  ⟨rfl, rfl⟩

/-- Behaviour of `Circuit.exec` on an open breaker: the stats take exactly
one `shortCircuit` recording, and the result is the fallback dispatch of
the source. -/
theorem exec_open {α : Type} (conf : CircuitConf) (st : Breaker) (args : α)
    (h : st.circuitOpen = true) :
    (Circuit.exec conf st args).1.stats = (st.stats.shortCircuit).1 ∧
    (Circuit.exec conf st args).2
      = (if conf.hasLocalFallback then ExecResult.localFallback args
         else if st.opts.hasFallback then ExecResult.brakesFallback args
         else ExecResult.circuitOpenError st.opts.name
           (Circuit.exec conf st args).1.stats.totals st.opts.threshold) := by
  unfold Circuit.exec
  dsimp only
  rw [if_pos h]
  dsimp only
  constructor
  · rw [checkStats_stats]
  · rw [checkStats_stats, checkStats_opts]

/-- Summing a mapped list after replacing the element at a valid index. -/
theorem sum_map_set {α : Type} (f : α → ℕ) (d : α) :
    ∀ (l : List α) (i : ℕ) (b : α), i < l.length →
      ((l.set i b).map f).sum + f (l.getD i d) = (l.map f).sum + f b
  | [], _, _, h => by simp at h
  | a :: l, 0, b, _ => by
    simp only [List.set, List.map_cons, List.sum_cons, List.getD_cons_zero]
    omega
  | a :: l, i + 1, b, h => by
    have ih := sum_map_set f d l i b (by simpa using h)
    simp only [List.set, List.map_cons, List.sum_cons, List.getD_cons_succ]
    omega

/-- Mapping after replacing an element whose image is unchanged is a
no-op. -/
theorem map_set_congr {α β : Type} (f : α → β) (d : α) :
    ∀ (l : List α) (i : ℕ) (b : α), i < l.length → f b = f (l.getD i d) →
      (l.set i b).map f = l.map f
  | [], _, _, h, _ => by simp at h
  | a :: l, 0, b, _, he => by
    simp only [List.set, List.map_cons, List.getD_cons_zero] at he ⊢
    rw [he]
  | a :: l, i + 1, b, h, he => by
    simp only [List.set, List.map_cons, List.getD_cons_succ] at he ⊢
    rw [map_set_congr f d l i b (by simpa using h) he]

/-- `plainLE` is reflexive. -/
theorem plainLE_refl (c : CumulativeStats) : c.plainLE c :=
  ⟨le_refl _, le_refl _, le_refl _, le_refl _, le_refl _⟩

/-- `plainLE` is transitive. -/
theorem plainLE_trans {c d e : CumulativeStats} (h1 : c.plainLE d)
    (h2 : d.plainLE e) : c.plainLE e :=
  ⟨le_trans h1.1 h2.1, le_trans h1.2.1 h2.2.1, le_trans h1.2.2.1 h2.2.2.1,
   le_trans h1.2.2.2.1 h2.2.2.2.1, le_trans h1.2.2.2.2 h2.2.2.2.2⟩

/-- Every `Stats` entry point leaves the plain cumulative counters
non-decreasing. -/
theorem applyStatsOp_plainLE (st : Stats) (op : StatsOp) :
    st.cum.plainLE (applyStatsOp st op).cum := by
  cases op <;>
    · refine ⟨?_, ?_, ?_, ?_, ?_⟩ <;>
      · dsimp only [applyStatsOp, Stats.success, Stats.failure, Stats.timeout,
          Stats.shortCircuit, Stats.update, Stats.rotate, Stats.reset,
          Stats.snapshot, resetDerivs, Stats.activeBucket, Stats.setActive,
          Bucket.success, Bucket.failure, Bucket.timeout, Bucket.shortCircuit]
        omega

/-- Plain cumulative counters are monotone along any operation sequence. -/
theorem applyStatsOps_plainLE (st : Stats) (ops : List StatsOp) :
    st.cum.plainLE (applyStatsOps st ops).cum := by
  induction ops generalizing st with
  | nil => exact plainLE_refl _
  | cons op ops ih => exact plainLE_trans (applyStatsOp_plainLE st op) (ih _)

/-- Each bucket operation preserves the bucket invariant. -/
theorem bucketInv_step (s : Bucket × CumulativeStats) (op : BucketOp)
    (h : BucketInv s.1) : BucketInv (applyBucketOp s op).1 := by
  obtain ⟨h1, h2⟩ := h
  cases op <;>
    · refine ⟨?_, ?_⟩ <;>
      · dsimp only [applyBucketOp, Bucket.success, Bucket.failure,
          Bucket.timeout, Bucket.shortCircuit]
        try simp only [List.length_append, List.length_cons, List.length_nil]
        omega

/-- The bucket invariant holds along any operation sequence. -/
theorem bucketInv_ops (s : Bucket × CumulativeStats) (h : BucketInv s.1) :
    ∀ ops : List BucketOp, BucketInv (applyBucketOps s ops).1 := by
  intro ops
  induction ops generalizing s with
  | nil => exact h
  | cons op ops ih => exact ih _ (bucketInv_step s op h)

/-- `_checkStats` opens a closed breaker exactly under the source's guard:
window total strictly above `waitThreshold` and success ratio strictly
below `threshold` (`mkRat successful total` is the ratio, by
`mkRat_natCast_div`). -/
theorem checkStats_open_iff (st : Breaker) (t : TotalStats)
    (h : st.circuitOpen = false) :
    ((st.checkStats t).circuitOpen = true ↔
      (st.opts.waitThreshold < t.total ∧
        mkRat t.successful t.total < st.opts.threshold)) := by
  unfold Breaker.checkStats
  dsimp only
  by_cases h1 : st.opts.waitThreshold < t.total
  · by_cases h2 : mkRat t.successful t.total < st.opts.threshold
    · rw [if_neg (by push_neg; exact ⟨h1, by omega, by simp [h]⟩), if_pos h2]
      unfold Breaker.openCircuit
      rw [if_neg (by simp [h])]
      simp [h1, h2]
    · rw [if_neg (by push_neg; exact ⟨h1, by omega, by simp [h]⟩), if_neg h2]
      simp [h, h2]
  · rw [if_pos (Or.inl h1)]
    simp [h, h1]

/-- The short-circuit scenario state satisfies the window shape. -/
theorem c6Start_WF : c6Start.WF := ⟨by decide, by decide⟩

/-! ## Claims -/

/-- Claim C1, counterexample: a success whose originating `exec` captured
generation 1 arrives while the breaker is at generation 2; the claim says
any stale outcome is dropped entirely, but the `success` event carries no
generation and `_successHandler` forwards to `Stats.success`
unconditionally, so both the window `successful` counter and the
cumulative `countSuccess` increase. -/
theorem c1_stale_success_updates_stats :
    1 ≠ genTwoState.circuitGeneration ∧
    (Circuit.settle genTwoState 1 (Outcome.success 7)).stats.cum.countSuccess
      = genTwoState.stats.cum.countSuccess + 1 ∧
    (Circuit.settle genTwoState 1 (Outcome.success 7)).stats.totals.successful
      = genTwoState.stats.totals.successful + 1 := by decide

/-- Claim C1, amended: the generation filter applies to `timeout` and
`failure` outcomes only — a stale one is dropped entirely, leaving the
whole breaker state unchanged — while a `success` outcome is forwarded to
Stats regardless of the generation its `exec` captured, always
incrementing `countSuccess`. -/
theorem c1_generation_filter_timeout_failure_only :
    (∀ (st : Breaker) (d g : ℕ), g ≠ st.circuitGeneration →
      Circuit.settle st g (Outcome.timeout d) = st ∧
      Circuit.settle st g (Outcome.failure d) = st) ∧
    (∀ (st : Breaker) (d g : ℕ),
      Circuit.settle st g (Outcome.success d) = st.onSuccess d ∧
      (Circuit.settle st g (Outcome.success d)).stats.cum.countSuccess
        = st.stats.cum.countSuccess + 1) := by
  constructor
  · intro st d g hg
    constructor
    · show st.onTimeout d g = st
      unfold Breaker.onTimeout
      rw [if_neg hg]
    · show st.onFailure d g = st
      unfold Breaker.onFailure
      rw [if_neg hg]
  · intro st d g
    refine ⟨rfl, ?_⟩
    show (st.onSuccess d).stats.cum.countSuccess = _
    unfold Breaker.onSuccess
    dsimp only
    rw [checkStats_stats]
    exact stats_success_cum st.stats d

/-- Claim C1 witness: the amended filter at a concrete stale generation. -/
theorem c1_generation_filter_witness :
    Circuit.settle genTwoState 1 (Outcome.timeout 5) = genTwoState ∧
    Circuit.settle genTwoState 1 (Outcome.failure 5) = genTwoState :=
  c1_generation_filter_timeout_failure_only.1 genTwoState 5 1 (by decide)

/-- Claim C2 (code bug): `_generateStats` is meant to attach a flat copy
of the ten CumulativeStats fields and does so whenever the shared record
exists (third conjunct); but the `Stats` constructor never assigns
`_cumulative` (`sourceCumulative = none`, the `defaultCumulativeStats`
literal of the source being dead code), so on the code as shipped
`Object.assign(tempTotals, undefined)` attaches none of the ten fields,
with or without latency stats.  The returned structure never carries the
raw `requestTimes` array: `TotalStats` has no such field, mirroring the
source's `delete tempTotals.requestTimes`. -/
theorem c2_generateStats_cumulative_copy :
    (generateStats (List.replicate 60 {}) true emptyTotals defaultPercentiles
        sourceCumulative).cumulative = none ∧
    (generateStats (List.replicate 60 {}) false emptyTotals defaultPercentiles
        sourceCumulative).cumulative = none ∧
    (∀ (c : CumulativeStats) (b : Bool) (buckets : List Bucket)
        (prev : TotalStats) (ps : List ℚ),
      (generateStats buckets b prev ps (some c)).cumulative = some c) := by
  refine ⟨by decide, by decide, ?_⟩
  intro c b buckets prev ps
  cases b <;> rfl

/-- Claim C3: on every `update` a closed breaker opens exactly when the
window total strictly exceeds `waitThreshold` and the success ratio
(`mkRat successful total`, which by `mkRat_natCast_div` is
`successful / total`) is strictly below `threshold`; concretely, with
`waitThreshold = 4` and `threshold = 1/2`, recording S, F, F, F, F leaves
the breaker closed at generation 1 through the fourth event and on the
fifth reaches `total = 5`, `successful = 1`, opens, bumps
`circuitGeneration` from 1 to 2, and emits `circuitOpen` but never
`circuitClosed`. -/
theorem c3_opens_exactly_on_threshold :
    (∀ (st : Breaker) (t : TotalStats), st.circuitOpen = false →
      ((st.checkStats t).circuitOpen = true ↔
        (st.opts.waitThreshold < t.total ∧
          mkRat t.successful t.total < st.opts.threshold))) ∧
    c3AfterFour.circuitOpen = false ∧
    c3AfterFour.circuitGeneration = 1 ∧
    c3Final.stats.totals.total = 5 ∧
    c3Final.stats.totals.successful = 1 ∧
    c3Final.circuitOpen = true ∧
    c3Final.circuitGeneration = 2 ∧
    c3Final.events = [Event.circuitOpenEv] :=
  ⟨checkStats_open_iff, by decide, by decide, by decide, by decide,
   by decide, by decide, by decide⟩

/-- Claim C3 witness: the opening condition instantiated at the scenario
options and the totals of the fifth event. -/
theorem c3_opens_witness :
    (c3Start.checkStats
      { failed := 4, timedOut := 0, total := 5, shortCircuited := 0
        successful := 1, latencyMean := 0, percentiles := []
        cumulative := none }).circuitOpen = true :=
  (c3_opens_exactly_on_threshold.1 c3Start _ (by decide)).mpr
    ⟨by decide, by decide⟩

/-- Claim C4: latency-inclusive aggregation sorts the window samples
ascending and applies the exact percentile rule (level 0 ↦ `a[0]`, level
`p` ↦ `a[⌈p·length⌉ − 1]`, 0 on an empty window — see `ratCeil_eq` and
`mkRat_mul_natCast` for the evaluable forms) and the rounded-mean rule
(`calculateMean_eq_round`; 0 on an empty window): for samples 10…50 and
levels `[0, 1/2, 1]` the table is `{0: 10, 1/2: 30, 1: 50}` with
`latencyMean = 30`, equally when the samples were recorded out of order;
an empty window yields a table of zeros and mean 0. -/
theorem c4_percentile_mean_exactness :
    windowRequestTimes c4Window.buckets = [10, 20, 30, 40, 50] ∧
    (c4Window.snapshot).2.percentiles = [(0, 10), (mkRat 1 2, 30), (1, 50)] ∧
    (c4Window.snapshot).2.latencyMean = 30 ∧
    sortAsc (windowRequestTimes c4Shuffled.buckets) = [10, 20, 30, 40, 50] ∧
    (c4Shuffled.snapshot).2.percentiles
      = [(0, 10), (mkRat 1 2, 30), (1, 50)] ∧
    (c4Shuffled.snapshot).2.latencyMean = 30 ∧
    (generateStats (List.replicate 60 {}) true emptyTotals [0, mkRat 1 2, 1]
        none).percentiles = [(0, 0), (mkRat 1 2, 0), (1, 0)] ∧
    (generateStats (List.replicate 60 {}) true emptyTotals [0, mkRat 1 2, 1]
        none).latencyMean = 0 := by decide

/-- Claim C5: every snapshot tick emits the latency-inclusive aggregate of
the current window and only then zeroes exactly the five `…Deriv` fields
of the shared cumulative record, leaving the plain counters untouched; and
the plain cumulative counters are monotone non-decreasing along every
sequence of `Stats` operations. -/
theorem c5_snapshot_resets_derivs :
    (∀ st : Stats,
      (st.snapshot).2
        = generateStats st.buckets true st.totals st.percentiles
            (some st.cum) ∧
      (st.snapshot).1.cum.countTotalDeriv = 0 ∧
      (st.snapshot).1.cum.countSuccessDeriv = 0 ∧
      (st.snapshot).1.cum.countFailureDeriv = 0 ∧
      (st.snapshot).1.cum.countTimeoutDeriv = 0 ∧
      (st.snapshot).1.cum.countShortCircuitedDeriv = 0 ∧
      (st.snapshot).1.cum.countTotal = st.cum.countTotal ∧
      (st.snapshot).1.cum.countSuccess = st.cum.countSuccess ∧
      (st.snapshot).1.cum.countFailure = st.cum.countFailure ∧
      (st.snapshot).1.cum.countTimeout = st.cum.countTimeout ∧
      (st.snapshot).1.cum.countShortCircuited = st.cum.countShortCircuited) ∧
    (∀ (st : Stats) (ops : List StatsOp),
      st.cum.plainLE (applyStatsOps st ops).cum) :=
  ⟨fun _ => ⟨rfl, rfl, rfl, rfl, rfl, rfl, rfl, rfl, rfl, rfl, rfl⟩,
   applyStatsOps_plainLE⟩

/-- Claim C6: while the breaker is open, each `exec` records exactly one
short circuit — the window `shortCircuited`, `countShortCircuited` and
`countShortCircuitedDeriv` each gain one while the window `total`, the
window `requestTimes` and `countTotal` are untouched — and the call
resolves through the local fallback if one exists, else the breaker-level
fallback, else rejects with a `CircuitBrokenError` carrying the breaker
name, the freshly stored totals and the threshold; ten open calls with no
fallback yield ten such errors, `countShortCircuited` up by 10, and
`countTotal` and the window total unchanged. -/
theorem c6_open_exec_short_circuits :
    (∀ (conf : CircuitConf) (st : Breaker) (args : ℕ),
      st.circuitOpen = true → st.WF →
      ((Circuit.exec conf st args).1.stats.cum.countShortCircuited
          = st.stats.cum.countShortCircuited + 1 ∧
       (Circuit.exec conf st args).1.stats.cum.countShortCircuitedDeriv
          = st.stats.cum.countShortCircuitedDeriv + 1 ∧
       (Circuit.exec conf st args).1.stats.cum.countTotal
          = st.stats.cum.countTotal ∧
       windowSum (Circuit.exec conf st args).1.stats.buckets
          Bucket.shortCircuited
          = windowSum st.stats.buckets Bucket.shortCircuited + 1 ∧
       windowSum (Circuit.exec conf st args).1.stats.buckets Bucket.total
          = windowSum st.stats.buckets Bucket.total ∧
       windowRequestTimes (Circuit.exec conf st args).1.stats.buckets
          = windowRequestTimes st.stats.buckets ∧
       (Circuit.exec conf st args).2
          = (if conf.hasLocalFallback then ExecResult.localFallback args
             else if st.opts.hasFallback then ExecResult.brakesFallback args
             else ExecResult.circuitOpenError st.opts.name
               (Circuit.exec conf st args).1.stats.totals
               st.opts.threshold))) ∧
    ((execResults 10 c6Start).2.length = 10 ∧
     (execResults 10 c6Start).2.all ExecResult.isCircuitOpenError = true ∧
     (execResults 10 c6Start).1.stats.cum.countShortCircuited
        = c6Start.stats.cum.countShortCircuited + 10 ∧
     (execResults 10 c6Start).1.stats.cum.countTotal
        = c6Start.stats.cum.countTotal ∧
     windowSum (execResults 10 c6Start).1.stats.buckets Bucket.total
        = windowSum c6Start.stats.buckets Bucket.total) := by
  constructor
  · intro conf st args hOpen hWF
    obtain ⟨hlen, hpos⟩ := hWF
    have hstats := (exec_open conf st args hOpen).1
    have hidx : st.stats.bucketNum - 1 < st.stats.buckets.length := by omega
    refine ⟨?_, ?_, ?_, ?_, ?_, ?_, (exec_open conf st args hOpen).2⟩
    · rw [hstats, (shortCircuit_state st.stats).1]
    · rw [hstats, (shortCircuit_state st.stats).1]
    · rw [hstats, (shortCircuit_state st.stats).1]
    · rw [hstats, (shortCircuit_state st.stats).2]
      have hs := sum_map_set Bucket.shortCircuited ({} : Bucket)
        st.stats.buckets (st.stats.bucketNum - 1)
        { st.stats.activeBucket with
          shortCircuited := st.stats.activeBucket.shortCircuited + 1 } hidx
      have hget : st.stats.buckets.getD (st.stats.bucketNum - 1) ({} : Bucket)
          = st.stats.activeBucket := rfl
      have hb : Bucket.shortCircuited
          { st.stats.activeBucket with
            shortCircuited := st.stats.activeBucket.shortCircuited + 1 }
          = st.stats.activeBucket.shortCircuited + 1 := rfl
      rw [hget, hb] at hs
      unfold windowSum
      omega
    · rw [hstats, (shortCircuit_state st.stats).2]
      unfold windowSum
      rw [map_set_congr Bucket.total ({} : Bucket) st.stats.buckets
        (st.stats.bucketNum - 1)
        { st.stats.activeBucket with
          shortCircuited := st.stats.activeBucket.shortCircuited + 1 }
        hidx rfl]
    · rw [hstats, (shortCircuit_state st.stats).2]
      unfold windowRequestTimes
      rw [map_set_congr Bucket.requestTimes ({} : Bucket) st.stats.buckets
        (st.stats.bucketNum - 1)
        { st.stats.activeBucket with
          shortCircuited := st.stats.activeBucket.shortCircuited + 1 }
        hidx rfl]
  · exact ⟨by decide, by decide, by decide, by decide, by decide⟩

/-- Claim C6 witness: the open-exec accounting at the concrete open
breaker with no fallback. -/
theorem c6_open_exec_witness :
    (Circuit.exec ({} : CircuitConf) c6Start
        (0 : ℕ)).1.stats.cum.countShortCircuited
      = c6Start.stats.cum.countShortCircuited + 1 :=
  (c6_open_exec_short_circuits.1 {} c6Start 0 (by decide) c6Start_WF).1

/-- Claim C7, counterexample: with `waitThreshold = 0` the very first
recorded failure (window `total = 1`, `successful = 0`, breaker closed)
does open the breaker — `1 > 0` holds strictly and the ratio `0 < 1/2` —
so the claimed boundary behaviour is false on the code. -/
theorem c7_first_failure_opens :
    c7Start.circuitOpen = false ∧
    c7Start.opts.waitThreshold = 0 ∧
    (c7Start.onFailure 5 1).stats.totals.total = 1 ∧
    (c7Start.onFailure 5 1).stats.totals.successful = 0 ∧
    (c7Start.onFailure 5 1).circuitOpen = true := by decide

/-- Claim C7, amended: with `waitThreshold = 0` (and the default threshold
1/2) the first recorded failure alone opens the breaker, incrementing the
generation to 2 and emitting `circuitOpen`. -/
theorem c7_first_failure_opens_amended :
    (c7Start.onFailure 5 1).circuitOpen = true ∧
    (c7Start.onFailure 5 1).circuitGeneration = 2 ∧
    (c7Start.onFailure 5 1).events = [Event.circuitOpenEv] := by decide

/-- Claim C8 (code bug): deregistering does splice the breaker out of the
instance list (`instanceCount` back to its pre-registration 0), but the
`snapshot` subscription survives: `deregister` hands `removeListener` a
fresh bound copy of `_globalListener`, not the function object `register`
subscribed, so a snapshot emitted after deregistration still reaches the
raw feed. -/
theorem c8_deregister_keeps_listener :
    GlobalStats.initial.instanceCount = 0 ∧
    (GlobalStats.initial.register 7).instanceCount = 1 ∧
    ((GlobalStats.initial.register 7).deregister 7).instanceCount = 0 ∧
    ((GlobalStats.initial.register 7).deregister 7).snapshotReachesRawFeed 7
      = true := by decide

/-- Claim C9: along every sequence of bucket operations from a fresh
bucket, `total = successful + failed + timedOut` and `requestTimes` holds
exactly one sample per counted outcome; and `shortCircuit` changes
precisely the bucket's `shortCircuited` and the cumulative short-circuit
pair, leaving `total`, `requestTimes` and every other field untouched. -/
theorem c9_bucket_invariants :
    (∀ (ops : List BucketOp) (c : CumulativeStats),
      BucketInv (applyBucketOps ({}, c) ops).1) ∧
    (∀ (b : Bucket) (c : CumulativeStats),
      (b.shortCircuit c).1
        = { b with shortCircuited := b.shortCircuited + 1 } ∧
      (b.shortCircuit c).2
        = { c with
            countShortCircuited := c.countShortCircuited + 1
            countShortCircuitedDeriv := c.countShortCircuitedDeriv + 1 }) :=
  ⟨fun ops c => bucketInv_ops ({}, c) ⟨rfl, rfl⟩ ops,
   fun _ _ => ⟨rfl, rfl⟩⟩

/-- Claim C10: `Brakes.exec` on a breaker constructed without a primary
function (no master circuit) returns the rejected promise carrying exactly
`consts.NO_FUNCTION`, and leaves the whole breaker state — stats and event
log included — unchanged. -/
theorem c10_exec_without_master_rejects :
    (∀ (st : Breaker) (args : ℕ),
      Breaker.exec none st args
        = (st, BrakesExecResult.rejected NO_FUNCTION)) ∧
    NO_FUNCTION
      = "This instance of brakes has no master circuit. You must use a slave circuit." :=
  ⟨fun _ _ => rfl, rfl⟩

end Brakes
